import Mathlib

/-!
Verification of the m-nim-skraperimm scraper server.

The development shallowly embeds the two JavaScript source variants
(`src/server.js` and `src/unnamed/part_000`).  Price strings are modelled as
Lean `String`s, JavaScript numbers as `Option ℚ` (`none` models `NaN`, the
result of `parseFloat` on an unparseable string), and the effectful scrape
cycle as a pure function from an environment (which setup step succeeds, what
the page evaluation returns, which upserts succeed) to a response paired with
the list of browser lifecycle events the cycle performed.

Rational values are constructed through `mkRat` and compared through
num/den cross multiplication so that every definition evaluates by kernel
reduction; bridge lemmas (`qSub_eq`, `qDiv_eq`, `qMul_eq`, `qLt_iff`,
`jsRound_eq_floor`) prove these operations equal to the ordinary field
operations and to `⌊q + 1/2⌋` (JavaScript `Math.round`).
-/

set_option maxRecDepth 4000

namespace Scraper

/-! ## JavaScript string primitives -/

/-- Characters kept by the `replace(/[^0-9,.]/g, '')` strip in `cleanAndParse`. -/
def isNumChar (c : Char) : Bool := c.isDigit || c = '.' || c = ','

/-- JavaScript `\s` whitespace (the fragment occurring in scraped texts). -/
def isJsSpace (c : Char) : Bool := c = ' ' || c = '\t' || c = '\n' || c = '\r'

/-- JavaScript `a || b` on strings: the empty string is falsy. -/
def jsOr (a b : String) : String := if a = "" then b else a

/-- A `null`/absent DOM string (modelled `none`) coerces to the empty string. -/
def optStr : Option String → String
  | none => ""
  | some s => s

/-- JavaScript `String.prototype.trim` on the character list. -/
def jsTrim (l : List Char) : List Char :=
  ((l.dropWhile isJsSpace).reverse.dropWhile isJsSpace).reverse

/-- Character-list core of `String.prototype.startsWith`. -/
def startsWithChars : List Char → List Char → Bool
  | [], _ => true
  | _ :: _, [] => false
  | p :: ps, c :: cs => p = c && startsWithChars ps cs

/-- JavaScript `String.prototype.startsWith`; first argument is the pattern. -/
def strStartsWith (pat s : String) : Bool := startsWithChars pat.toList s.toList

/-- JavaScript `String.prototype.replace(',', '.')` with a plain-string
pattern: only the first comma is replaced. -/
def replaceFirstComma : List Char → List Char
  | [] => []
  | a :: t => if a = ',' then '.' :: t else a :: replaceFirstComma t

/-! ## parseFloat on digit/dot/comma strings -/

/-- Decimal value of a digit string. -/
def digitsToNat (l : List Char) : Nat :=
  l.foldl (fun n c => 10 * n + (c.toNat - 48)) 0

/-- JavaScript `parseFloat` restricted to strings over `[0-9.,]` (the only
strings it receives inside `cleanAndParse`): the longest prefix of the form
`digits`, `digits.digits`, `digits.` or `.digits` is read as a decimal
number; when no such nonempty prefix exists the result is `NaN`, modelled as
`none`.  The value of `d1.d2` is built as one exact fraction via `mkRat`. -/
def parseFloatQ (l : List Char) : Option ℚ :=
  let d1 := l.takeWhile Char.isDigit
  let rest := l.dropWhile Char.isDigit
  if rest ≠ [] ∧ rest.headD ' ' = '.' then
    let d2 := rest.tail.takeWhile Char.isDigit
    if d1 = [] ∧ d2 = [] then none
    else some (mkRat (digitsToNat d1 * 10 ^ d2.length + digitsToNat d2) (10 ^ d2.length))
  else
    if d1 = [] then none else some (mkRat (digitsToNat d1) 1)

/-- The strip step `str.replace(/[^0-9,.]/g, '')`. -/
def stripNonNumeric (l : List Char) : List Char := l.filter isNumChar

/-- The separator rule of `cleanAndParse`: with both `.` and `,` present all
dots are removed and the first comma becomes a dot; with only `,` present the
first comma becomes a dot; otherwise the string is untouched. -/
def normalizeSeps (s : List Char) : List Char :=
  if s.contains ',' && s.contains '.' then
    replaceFirstComma (s.filter (fun c => c != '.'))
  else if s.contains ',' then replaceFirstComma s
  else s

/-- `cleanAndParse` from `src/server.js` lines 126-139 (identical in
`src/unnamed/part_000` lines 99-112).  The argument is `Option String` so the
JavaScript call on `undefined` is representable (`none`); both `undefined`
and the empty string are falsy and return `0` through the `if (!str) return 0` guard. -/
def cleanAndParse (str : Option String) : Option ℚ :=
  match str with
  | none => some 0
  | some s =>
    if s = "" then some 0
    else parseFloatQ (normalizeSeps (stripNonNumeric s.toList))

/-! ## Executable rational arithmetic

The core `Rat` field operations are `@[irreducible]`, which blocks kernel
evaluation inside `decide`; the pipeline therefore computes with the
following num/den implementations, each proved equal to the corresponding
field operation below. -/

/-- Subtraction on ℚ computed on num/den; equals `a - b` (`qSub_eq`). -/
def qSub (a b : ℚ) : ℚ := mkRat (a.num * b.den - b.num * a.den) (a.den * b.den)

/-- Division on ℚ computed on num/den; equals `a / b` (`qDiv_eq`). -/
def qDiv (a b : ℚ) : ℚ := Rat.divInt (a.num * b.den) (a.den * b.num)

/-- Multiplication on ℚ computed on num/den; equals `a * b` (`qMul_eq`). -/
def qMul (a b : ℚ) : ℚ := mkRat (a.num * b.num) (a.den * b.den)

/-- Strict comparison on ℚ by cross multiplication; equals `a < b`
(`qLt_iff`). -/
def qLt (a b : ℚ) : Bool := a.num * b.den < b.num * a.den

/-- JavaScript `Math.round` on an exact rational: `⌊q + 1/2⌋`, computed as an
integer division (the divisor `2 * q.den` is positive, so `/` on ℤ floors);
`jsRound_eq_floor` certifies the floor characterisation. -/
def jsRound (q : ℚ) : ℤ := (2 * q.num + (q.den : ℤ)) / (2 * (q.den : ℤ))

theorem qSub_eq (a b : ℚ) : qSub a b = a - b := by
  have ha : ((a.den : ℚ)) ≠ 0 := Nat.cast_ne_zero.mpr (Rat.den_ne_zero a)
  have hb : ((b.den : ℚ)) ≠ 0 := Nat.cast_ne_zero.mpr (Rat.den_ne_zero b)
  rw [qSub, Rat.mkRat_eq_divInt, Rat.divInt_eq_div]
  push_cast
  conv_rhs => rw [← Rat.num_div_den a, ← Rat.num_div_den b]
  field_simp
  ring

theorem qMul_eq (a b : ℚ) : qMul a b = a * b := by
  have ha : ((a.den : ℚ)) ≠ 0 := Nat.cast_ne_zero.mpr (Rat.den_ne_zero a)
  have hb : ((b.den : ℚ)) ≠ 0 := Nat.cast_ne_zero.mpr (Rat.den_ne_zero b)
  rw [qMul, Rat.mkRat_eq_divInt, Rat.divInt_eq_div]
  push_cast
  conv_rhs => rw [← Rat.num_div_den a, ← Rat.num_div_den b]
  field_simp

theorem qDiv_eq (a b : ℚ) : qDiv a b = a / b := by
  rcases eq_or_ne b 0 with rfl | hb0
  · have h0 : (0 : ℚ).num = 0 := rfl
    simp [qDiv, h0]
  · have ha : ((a.den : ℚ)) ≠ 0 := Nat.cast_ne_zero.mpr (Rat.den_ne_zero a)
    have hbd : ((b.den : ℚ)) ≠ 0 := Nat.cast_ne_zero.mpr (Rat.den_ne_zero b)
    have hbn : ((b.num : ℚ)) ≠ 0 := by
      exact_mod_cast Rat.num_ne_zero.mpr hb0
    rw [qDiv, Rat.divInt_eq_div]
    push_cast
    conv_rhs => rw [← Rat.num_div_den a, ← Rat.num_div_den b]
    field_simp

theorem qLt_iff (a b : ℚ) : qLt a b = true ↔ a < b := by
  have ha : (0 : ℚ) < (a.den : ℚ) := by exact_mod_cast Rat.den_pos a
  have hb : (0 : ℚ) < (b.den : ℚ) := by exact_mod_cast Rat.den_pos b
  rw [qLt, decide_eq_true_eq]
  have hr : a < b ↔ (a.num : ℚ) / (a.den : ℚ) < (b.num : ℚ) / (b.den : ℚ) := by
    rw [Rat.num_div_den, Rat.num_div_den]
  rw [hr, div_lt_div_iff₀ ha hb]
  norm_cast

theorem jsRound_eq_floor (q : ℚ) : jsRound q = ⌊q + 1 / 2⌋ := by
  have hd : ((q.den : ℚ)) ≠ 0 := Nat.cast_ne_zero.mpr (Rat.den_ne_zero q)
  have key : q + 1 / 2 = ((2 * q.num + (q.den : ℤ) : ℤ) : ℚ) / ((2 * q.den : ℕ) : ℚ) := by
    conv_lhs => rw [← Rat.num_div_den q]
    push_cast
    field_simp
    ring
  rw [key, Rat.floor_intCast_div_natCast, jsRound]
  push_cast
  rfl

theorem jsRound_zero : jsRound 0 = 0 := by decide

/-! ## Field extraction from an item card -/

/-- Model of one DOM item card as the extraction code observes it:
`getTxt sel` is the `innerText` of the first descendant matching `sel` (empty
when there is no match), `hrefAttr` is the result of
`el.getAttribute('href')` (`none` for `null`), `anchorHref` the `.href` of
the first descendant anchor (`none` when no anchor exists), `imgSrc` the
`.src` of the first descendant image, and `innerText` the full visible text
of the card. -/
structure ElemModel where
  getTxt : String → String
  hrefAttr : Option String
  anchorHref : Option String
  imgSrc : Option String
  innerText : String

/-- One scraped record as produced inside `page.evaluate`. -/
structure RawItem where
  title : String
  priceStr : String
  orgPriceStr : String
  link : String
  img : String
deriving DecidableEq

/-- Marker alternation `(?:TL|₼|AZN)` of the price regex, case-insensitive;
returns the matched marker characters and the remaining input. -/
def matchMarker : List Char → Option (List Char × List Char)
  | [] => none
  | a :: rest =>
    if a = 'T' ∨ a = 't' then
      match rest with
      | b :: rest2 => if b = 'L' ∨ b = 'l' then some ([a, b], rest2) else none
      | [] => none
    else if a = '₼' then some ([a], rest)
    else if a = 'A' ∨ a = 'a' then
      match rest with
      | b :: c :: rest3 =>
        if (b = 'Z' ∨ b = 'z') ∧ (c = 'N' ∨ c = 'n') then some ([a, b, c], rest3)
        else none
      | _ => none
    else none

/-- One attempt of `/([0-9.,]+)\s*(?:TL|₼|AZN)/i` anchored at the current
position: a nonempty maximal `[0-9.,]` run, optional whitespace, then a
marker.  (No shorter numeric run can succeed, because the character after a
shortened run is again in `[0-9.,]`, which no marker starts with.) -/
def tryMatchAt (l : List Char) : Option (List Char × List Char) :=
  let run := l.takeWhile isNumChar
  if run = [] then none
  else
    let rest1 := l.dropWhile isNumChar
    let sp := rest1.takeWhile isJsSpace
    let rest2 := rest1.dropWhile isJsSpace
    match matchMarker rest2 with
    | some (mark, rest3) => some (run ++ sp ++ mark, rest3)
    | none => none

/-- Global regex scan: leftmost match first, resuming after each match end;
the fuel argument (initially the string length) bounds the number of steps. -/
def scanAux : Nat → List Char → List String
  | 0, _ => []
  | _ + 1, [] => []
  | fuel + 1, a :: t =>
    match tryMatchAt (a :: t) with
    | some (m, rest) => String.mk m :: scanAux fuel rest
    | none => scanAux fuel t

/-- `text.match(/([0-9.,]+)\s*(?:TL|₼|AZN)/gi)` as the list of full match
strings (an empty list models the `null` result). -/
def priceMatches (s : String) : List String := scanAux s.toList.length s.toList

/-- Strategy 2 of `src/server.js` lines 78-93: when the selector-chain price
is empty, scan the whole card text; a single token becomes the sale price,
two or more tokens make the first the original and the last the sale price. -/
def regexFallback (price orgPrice text : String) : String × String :=
  match priceMatches text with
  | [] => (price, orgPrice)
  | [m] => (m, orgPrice)
  | m :: ms => ((m :: ms).getLast?.getD "", m)

/-- Link choice of `src/server.js` line 97: the own `href` attribute of the element, if present and nonempty, else the `href` of the first descendant anchor, else the empty string. -/
def extractLink (el : ElemModel) : String :=
  jsOr (optStr el.hrefAttr) (optStr el.anchorHref)

/-- Relative-link fix of `src/server.js` line 104: a link that does not start
with `http` is prefixed with the hardcoded trendyol origin, whatever platform
is being scraped. -/
def resolveLink (link : String) : String :=
  if strStartsWith "http" link then link
  else "https://www.trendyol.com" ++ link

/-- Per-card extraction of `src/server.js` lines 67-106 (selector chains,
regex price fallback, original-price default, link fix). -/
def extractRawItem (el : ElemModel) : RawItem :=
  let brand := jsOr (el.getTxt ".product-brand") (el.getTxt ".prdct-desc-cntnr-ttl")
  let name := jsOr (el.getTxt ".product-name")
    (jsOr (el.getTxt ".prdct-desc-cntnr-name") (el.getTxt ".fn.name"))
  let price0 := jsOr (el.getTxt ".sale-price")
    (jsOr (el.getTxt ".prc-box-dscntd")
      (jsOr (el.getTxt ".prc-box-sllng") (el.getTxt ".discounted-price")))
  let orgPrice0 := jsOr (el.getTxt ".strikethrough-price")
    (jsOr (el.getTxt ".prc-box-orgnl") (el.getTxt ".original-price"))
  let pq := if price0 = "" then regexFallback price0 orgPrice0 el.innerText
            else (price0, orgPrice0)
  { title := String.mk (jsTrim (brand ++ " " ++ name).toList)
    priceStr := pq.1
    orgPriceStr := jsOr pq.2 pq.1
    link := resolveLink (extractLink el)
    img := optStr el.imgSrc }

/-- Per-card extraction of the `src/unnamed/part_000` variant, lines 59-79:
identical selector chains but no regex fallback; the original price chain
falls back directly to the sale price string. -/
def extractRawItemV0 (el : ElemModel) : RawItem :=
  let brand := jsOr (el.getTxt ".product-brand") (el.getTxt ".prdct-desc-cntnr-ttl")
  let name := jsOr (el.getTxt ".product-name")
    (jsOr (el.getTxt ".prdct-desc-cntnr-name") (el.getTxt ".fn.name"))
  let price := jsOr (el.getTxt ".sale-price")
    (jsOr (el.getTxt ".prc-box-dscntd")
      (jsOr (el.getTxt ".prc-box-sllng") (el.getTxt ".discounted-price")))
  let orgPrice := jsOr (el.getTxt ".strikethrough-price")
    (jsOr (el.getTxt ".prc-box-orgnl")
      (jsOr (el.getTxt ".original-price") price))
  { title := String.mk (jsTrim (brand ++ " " ++ name).toList)
    priceStr := price
    orgPriceStr := orgPrice
    link := resolveLink (extractLink el)
    img := optStr el.imgSrc }

/-! ## Normalisation, discount and filter -/

/-- The persisted record shape of `src/server.js` lines 150-159. -/
structure Product where
  title : String
  price : Option ℚ
  original_price : Option ℚ
  discount_rate : ℤ
  image_url : String
  product_url : String
  platform : String
  external_id : String
deriving DecidableEq

/-- Discount of `src/server.js` lines 145-148: `((orgPrice - price) /
orgPrice) * 100` when `orgPrice > price && orgPrice > 0`, else `0`; any
comparison against `NaN` (`none`) is false, giving `0`. -/
def computeDiscount (orgPrice price : Option ℚ) : ℚ :=
  match orgPrice, price with
  | some o, some pr =>
    if qLt pr o && qLt 0 o then qMul (qDiv (qSub o pr) o) (mkRat 100 1) else 0
  | _, _ => 0

/-- The map step of `src/server.js` lines 112-159 for one raw item: parse
both price strings, replace a zero original price by the sale price, compute
the rounded discount, and build the product record. -/
def procItem (platformKey : String) (p : RawItem) : Product :=
  let price := cleanAndParse (some p.priceStr)
  let orgPrice0 := cleanAndParse (some p.orgPriceStr)
  let orgPrice := if orgPrice0 = some 0 then price else orgPrice0
  { title := p.title
    price := price
    original_price := orgPrice
    discount_rate := jsRound (computeDiscount orgPrice price)
    image_url := p.img
    product_url := p.link
    platform := platformKey
    external_id := p.link }

/-- The filter of `src/server.js` line 160:
`p.discount_rate >= 40 && p.price > 0` (false when the price is `NaN`). -/
def keepsItem (p : Product) : Bool :=
  decide (40 ≤ p.discount_rate) &&
    (match p.price with
     | some q => qLt 0 q
     | none => false)

/-- `validProducts` of `src/server.js` lines 112-160: map then filter. -/
def validProducts (key : String) (items : List RawItem) : List Product :=
  (items.map (procItem key)).filter keepsItem

/-- The sequential upsert loop of lines 165-175: one upsert per valid
product; a successful call pushes one saved item. -/
def savedCount (valid : List Product) (oks : List Bool) : Nat :=
  ((valid.zip oks).filter (fun x => x.2)).length

/-! ## Platform registry and the scrape cycle -/

/-- One entry of the platform registry. -/
structure PlatformConfig where
  url : String
  selector : String
deriving DecidableEq

/-- The `CONFIG` object of `src/server.js` lines 10-22. -/
def CONFIG (key : String) : Option PlatformConfig :=
  if key = "trendyol" then
    some { url := "https://www.trendyol.com/sr?wc=103328&fl=en-cok-one-cikanlar"
           selector := ".product-card-jfy" }
  else if key = "temu" then
    some { url := "https://www.temu.com/az/channel/lightning-deals.html"
           selector := ".goods-item" }
  else none

/-- Browser lifecycle events observable during one scrape cycle. -/
inductive Ev
  | launch
  | close
deriving DecidableEq

/-- Environment of one scrape cycle: whether the context/cookie/page setup
between `chromium.launch` and the `try` block succeeds, whether navigation
and in-page evaluation succeed, which item cards the page evaluation sees,
and which upsert calls succeed. -/
structure Env where
  setupOk : Bool
  gotoOk : Bool
  elements : List ElemModel
  upsertOk : List Bool

/-- Outcome of one scrape cycle: a returned error payload, a returned
success payload (counts, first 50 products, first 10 raw items), or an
exception propagating out of `scrape` uncaught. -/
inductive ScrapeResult
  | errorPayload (msg : String)
  | success (total filtered saved : Nat) (data : List Product) (debugRaw : List RawItem)
  | thrown (msg : String)
deriving DecidableEq

/-- The `scrape` function of `src/server.js` lines 24-192.  An unknown key
returns the error payload before any browser event.  Otherwise the browser
launches; the context/cookie/page setup (lines 31-53) runs before the
`try`/`finally`, so its failure propagates without `browser.close()`
running; failures inside the `try` are caught, answered with an error
payload, and the `finally` closes the browser; on success the payload
carries the counts, the first 50 filtered products and the first 10 raw
items, and the browser is closed. -/
def scrape (key : String) (env : Env) : ScrapeResult × List Ev :=
  match CONFIG key with
  | none => (ScrapeResult.errorPayload "Platform not supported", [])
  | some _ =>
    if env.setupOk then
      if env.gotoOk then
        let products := env.elements.map extractRawItem
        let valid := validProducts key products
        let saved := savedCount valid env.upsertOk
        (ScrapeResult.success products.length valid.length saved
          (valid.take 50) (products.take 10), [Ev.launch, Ev.close])
      else (ScrapeResult.errorPayload "page.goto failed", [Ev.launch, Ev.close])
    else (ScrapeResult.thrown "browser.newContext failed", [Ev.launch])

/-! ## Helper lemmas -/

theorem takeWhile_isDigit_nil {l : List Char} (h : ∀ c ∈ l, c.isDigit = false) :
    l.takeWhile Char.isDigit = [] := by
  cases l with
  | nil => rfl
  | cons a t => simp [List.takeWhile_cons, h a (List.mem_cons_self a t)]

theorem dropWhile_isDigit_id {l : List Char} (h : ∀ c ∈ l, c.isDigit = false) :
    l.dropWhile Char.isDigit = l := by
  cases l with
  | nil => rfl
  | cons a t => simp [List.dropWhile_cons, h a (List.mem_cons_self a t)]

theorem mem_replaceFirstComma {c : Char} {l : List Char}
    (h : c ∈ replaceFirstComma l) : c = '.' ∨ c ∈ l := by
  induction l with
  | nil => simp [replaceFirstComma] at h
  | cons a t ih =>
    by_cases ha : a = ','
    · rw [replaceFirstComma, if_pos ha] at h
      rcases List.mem_cons.mp h with h1 | h1
      · exact Or.inl h1
      · exact Or.inr (List.mem_cons_of_mem _ h1)
    · rw [replaceFirstComma, if_neg ha] at h
      rcases List.mem_cons.mp h with h1 | h1
      · exact Or.inr (h1 ▸ List.mem_cons_self a t)
      · rcases ih h1 with h2 | h2
        · exact Or.inl h2
        · exact Or.inr (List.mem_cons_of_mem _ h2)

theorem noDigit_normalizeSeps {l : List Char} (h : ∀ c ∈ l, c.isDigit = false) :
    ∀ c ∈ normalizeSeps l, c.isDigit = false := by
  intro c hc
  rw [normalizeSeps] at hc
  split_ifs at hc with h1 h2
  · rcases mem_replaceFirstComma hc with h3 | h3
    · rw [h3]; decide
    · exact h c (List.mem_filter.mp h3).1
  · rcases mem_replaceFirstComma hc with h3 | h3
    · rw [h3]; decide
    · exact h c h3
  · exact h c hc

theorem parseFloatQ_noDigit {l : List Char} (h : ∀ c ∈ l, c.isDigit = false) :
    parseFloatQ l = none := by
  have h1 : l.takeWhile Char.isDigit = [] := takeWhile_isDigit_nil h
  have h2 : l.dropWhile Char.isDigit = l := dropWhile_isDigit_id h
  simp only [parseFloatQ, h1, h2]
  by_cases h3 : l ≠ [] ∧ l.headD ' ' = '.'
  · rw [if_pos h3]
    have h4 : l.tail.takeWhile Char.isDigit = [] :=
      takeWhile_isDigit_nil fun c hc => h c (List.mem_of_mem_tail hc)
    simp [h4]
  · rw [if_neg h3]
    simp

theorem qLt_self (a : ℚ) : qLt a a = false := by
  rw [qLt, decide_eq_false_iff_not]
  exact lt_irrefl _

/-- The computed discount expression equals the specification formula. -/
theorem discount_formula_eq (o pr : ℚ) :
    qMul (qDiv (qSub o pr) o) (mkRat 100 1) = (o - pr) / o * 100 := by
  rw [qMul_eq, qDiv_eq, qSub_eq, Rat.mkRat_one]
  norm_num

theorem jsRound_computeDiscount_none {op pv : Option ℚ}
    (h : op = none ∨ pv = none) : jsRound (computeDiscount op pv) = 0 := by
  rcases h with rfl | rfl
  · cases pv <;> simp [computeDiscount, jsRound_zero]
  · cases op <;> simp [computeDiscount, jsRound_zero]

theorem jsRound_computeDiscount_some (o pr : ℚ) :
    jsRound (computeDiscount (some o) (some pr)) =
      if pr < o ∧ 0 < o then ⌊(o - pr) / o * 100 + 1 / 2⌋ else 0 := by
  have hiff : ((qLt pr o && qLt 0 o) = true) ↔ (pr < o ∧ 0 < o) := by
    rw [Bool.and_eq_true, qLt_iff, qLt_iff]
  simp only [computeDiscount]
  by_cases h : pr < o ∧ 0 < o
  · rw [if_pos (hiff.mpr h), if_pos h, discount_formula_eq, jsRound_eq_floor]
  · rw [if_neg (fun hb => h (hiff.mp hb)), if_neg h]
    exact jsRound_zero

theorem jsRound_computeDiscount_self (x : Option ℚ) :
    jsRound (computeDiscount x x) = 0 := by
  cases x with
  | none => simp [computeDiscount, jsRound_zero]
  | some a => simp [computeDiscount, qLt_self a, jsRound_zero]

/-! ## Concrete fixtures -/

/-- A raw item priced 60 with original price 100 (40 percent discount). -/
def item60 : RawItem :=
  { title := "", priceStr := "60 ₼", orgPriceStr := "100 ₼"
    link := "https://www.trendyol.com/p/60", img := "" }

/-- A raw item priced 61 with original price 100 (39 percent discount). -/
def item61 : RawItem :=
  { title := "", priceStr := "61 ₼", orgPriceStr := "100 ₼"
    link := "https://www.trendyol.com/p/61", img := "" }

/-- A raw item whose sale price parses to 0 with positive original price. -/
def itemZeroPrice : RawItem :=
  { title := "", priceStr := "0 ₼", orgPriceStr := "100 ₼", link := "", img := "" }

/-- A raw item whose original price parses to 0 with positive sale price. -/
def itemZeroOrg : RawItem :=
  { title := "", priceStr := "50 ₼", orgPriceStr := "0 ₼", link := "", img := "" }

/-- An item card carrying only a relative link. -/
def elTemuRel : ElemModel :=
  { getTxt := fun _ => "", hrefAttr := some "/p/123", anchorHref := none
    imgSrc := none, innerText := "" }

/-- Environment in which a temu page yields the single card `elTemuRel`. -/
def envTemu : Env :=
  { setupOk := true, gotoOk := true, elements := [elTemuRel], upsertOk := [] }

/-- An item card with empty price selectors whose visible text contains two
currency-tagged tokens. -/
def elFallback : ElemModel :=
  { getTxt := fun _ => "", hrefAttr := none, anchorHref := none
    imgSrc := none, innerText := "100 TL 80 TL" }

/-- Environment with no item cards. -/
def envEmpty : Env :=
  { setupOk := true, gotoOk := true, elements := [], upsertOk := [] }

/-- Environment in which the context/page setup after launch throws. -/
def envSetupFail : Env :=
  { setupOk := false, gotoOk := true, elements := [], upsertOk := [] }

/-- An item card with a 50 percent discount read from the price selectors. -/
def el60 : ElemModel :=
  { getTxt := fun sel =>
      if sel = ".sale-price" then "60 ₼"
      else if sel = ".strikethrough-price" then "120 ₼"
      else ""
    hrefAttr := some "https://www.trendyol.com/p/60", anchorHref := none
    imgSrc := none, innerText := "" }

/-- Environment with one passing card and one successful upsert. -/
def env60 : Env :=
  { setupOk := true, gotoOk := true, elements := [el60], upsertOk := [true] }

/-! ## Claim theorems -/

/-- C1 (counterexample): a raw item whose sale price parses to `0` and whose
original price parses to `100` is emitted with `discount_rate = 100`, not `0`,
although `originalPrice > price > 0` fails (the code guards on
`orgPrice > price && orgPrice > 0`, not on `price > 0`). -/
theorem discount_rate_zero_price_counterexample :
    (procItem "trendyol" itemZeroPrice).price = some 0 ∧
    (procItem "trendyol" itemZeroPrice).original_price = some (mkRat 100 1) ∧
    (procItem "trendyol" itemZeroPrice).discount_rate = 100 := by decide

/-- C1 (amended): for every raw item the emitted discount rate is
`⌊(originalPrice - price) / originalPrice * 100 + 1/2⌋` (JavaScript
`Math.round`) exactly when `originalPrice > price` and `originalPrice > 0`
both hold on the emitted numeric fields, and `0` otherwise, including when
either field is `NaN`; the condition is on `originalPrice > 0`, not
`price > 0`. -/
theorem discount_rate_invariant (key : String) (p : RawItem) :
    (((procItem key p).original_price = none ∨ (procItem key p).price = none) →
      (procItem key p).discount_rate = 0) ∧
    ∀ o pr : ℚ, (procItem key p).original_price = some o →
      (procItem key p).price = some pr →
      (procItem key p).discount_rate =
        if pr < o ∧ 0 < o then ⌊(o - pr) / o * 100 + 1 / 2⌋ else 0 := by
  have h3 : (procItem key p).discount_rate =
      jsRound (computeDiscount ((procItem key p).original_price)
        ((procItem key p).price)) := rfl
  constructor
  · intro h
    rw [h3]
    exact jsRound_computeDiscount_none h
  · intro o pr ho hp
    rw [h3, ho, hp]
    exact jsRound_computeDiscount_some o pr

/-- C1 (witness): the invariant evaluated on the 60/100 item. -/
theorem discount_rate_invariant_witness :
    (procItem "trendyol" item60).discount_rate =
      if (mkRat 60 1 : ℚ) < mkRat 100 1 ∧ (0 : ℚ) < mkRat 100 1 then
        ⌊((mkRat 100 1 : ℚ) - mkRat 60 1) / mkRat 100 1 * 100 + 1 / 2⌋
      else 0 :=
  (discount_rate_invariant "trendyol" item60).2 (mkRat 100 1) (mkRat 60 1)
    (by decide) (by decide)

/-- C2: the fixed separator rule of `cleanAndParse`: `"1.250,50"` parses to
`1250.50`, `"28,07"` to `28.07`, and `"1.200"` (dot only, no comma) is left
as-is and parses to `1.2`, not `1200`. -/
theorem cleanAndParse_separator_rules :
    cleanAndParse (some "1.250,50") = some (mkRat 2501 2) ∧
    cleanAndParse (some "28,07") = some (mkRat 2807 100) ∧
    cleanAndParse (some "1.200") = some (mkRat 6 5) ∧
    cleanAndParse (some "1.200") ≠ some (mkRat 1200 1) := by decide

/-- C3 (counterexample): on a letters-only string `cleanAndParse` returns
`NaN` (`parseFloat` of the empty stripped string), not `0`. -/
theorem cleanAndParse_letters_counterexample :
    cleanAndParse (some "abc") = none ∧
    cleanAndParse (some "abc") ≠ some 0 := by decide

/-- C3 (amended): `cleanAndParse` returns `0` for `undefined` and for the
empty string (both falsy), but a nonempty string containing no digit yields
`NaN` (modelled `none`), not `0`. -/
theorem cleanAndParse_falsy_and_unparseable (s : String) (h1 : s ≠ "")
    (h2 : ∀ c ∈ s.toList, c.isDigit = false) :
    cleanAndParse (some s) = none ∧
    cleanAndParse none = some 0 ∧ cleanAndParse (some "") = some 0 := by
  refine ⟨?_, rfl, by decide⟩
  simp only [cleanAndParse, if_neg h1]
  refine parseFloatQ_noDigit (noDigit_normalizeSeps ?_)
  intro c hc
  exact h2 c (List.mem_filter.mp hc).1

/-- C3 (witness): the amended statement evaluated at `"abc"`. -/
theorem cleanAndParse_falsy_and_unparseable_witness :
    cleanAndParse (some "abc") = none ∧
    cleanAndParse none = some 0 ∧ cleanAndParse (some "") = some 0 :=
  cleanAndParse_falsy_and_unparseable "abc" (by decide) (by decide)

/-- C4: the discount filter boundary is inclusive at 40: price 60 against
original 100 gives rate 40 and is kept, price 61 against original 100 gives
rate 39 and is dropped, and the pipeline on both items keeps exactly the
first. -/
theorem discount_filter_boundary :
    (procItem "trendyol" item60).discount_rate = 40 ∧
    keepsItem (procItem "trendyol" item60) = true ∧
    (procItem "trendyol" item61).discount_rate = 39 ∧
    keepsItem (procItem "trendyol" item61) = false ∧
    validProducts "trendyol" [item60, item61] = [procItem "trendyol" item60] := by
  decide

/-- C5: a raw item whose original-price string parses to `0` has its
original price replaced by the sale price, which forces the discount rate to
`0`, so the filter drops it whatever the sale price is. -/
theorem zero_original_price_dropped (key : String) (p : RawItem)
    (h : cleanAndParse (some p.orgPriceStr) = some 0) :
    (procItem key p).original_price = (procItem key p).price ∧
    (procItem key p).discount_rate = 0 ∧
    keepsItem (procItem key p) = false := by
  have h1 : (procItem key p).original_price =
      (if cleanAndParse (some p.orgPriceStr) = some 0 then cleanAndParse (some p.priceStr)
       else cleanAndParse (some p.orgPriceStr)) := rfl
  have h2 : (procItem key p).price = cleanAndParse (some p.priceStr) := rfl
  have h3 : (procItem key p).discount_rate =
      jsRound (computeDiscount ((procItem key p).original_price)
        ((procItem key p).price)) := rfl
  rw [h, if_pos rfl] at h1
  have heq : (procItem key p).original_price = (procItem key p).price := by
    rw [h1, h2]
  have hdr : (procItem key p).discount_rate = 0 := by
    rw [h3, heq]
    exact jsRound_computeDiscount_self _
  refine ⟨heq, hdr, ?_⟩
  have h40 : decide (40 ≤ (procItem key p).discount_rate) = false := by
    rw [hdr]; decide
  simp only [keepsItem, h40, Bool.false_and]

/-- C5 (witness): the statement evaluated on the 50-for-0 item. -/
theorem zero_original_price_dropped_witness :
    (procItem "trendyol" itemZeroOrg).original_price =
      (procItem "trendyol" itemZeroOrg).price ∧
    (procItem "trendyol" itemZeroOrg).discount_rate = 0 ∧
    keepsItem (procItem "trendyol" itemZeroOrg) = false :=
  zero_original_price_dropped "trendyol" itemZeroOrg (by decide)

/-- C6: a platform key absent from the registry is answered with the
`Platform not supported` error payload and no browser event occurs. -/
theorem unknown_platform_no_browser (key : String) (env : Env)
    (h : CONFIG key = none) :
    scrape key env = (ScrapeResult.errorPayload "Platform not supported", []) ∧
    Ev.launch ∉ (scrape key env).2 := by
  have hs : scrape key env = (ScrapeResult.errorPayload "Platform not supported", []) := by
    unfold scrape
    rw [h]
  refine ⟨hs, ?_⟩
  rw [hs]
  simp

/-- C6 (witness): the unknown key `foo` with a concrete environment. -/
theorem unknown_platform_no_browser_witness :
    scrape "foo" envEmpty = (ScrapeResult.errorPayload "Platform not supported", []) ∧
    Ev.launch ∉ (scrape "foo" envEmpty).2 :=
  unknown_platform_no_browser "foo" envEmpty (by decide)

/-- C7 (counterexample): scraping the temu platform, a card whose own `href`
is the relative `/p/123` is emitted with the link resolved against the
hardcoded trendyol origin, not against the temu origin. -/
theorem temu_link_trendyol_origin_counterexample :
    (scrape "temu" envTemu).1 =
      ScrapeResult.success 1 0 0 [] [extractRawItem elTemuRel] ∧
    (extractRawItem elTemuRel).link = "https://www.trendyol.com/p/123" ∧
    strStartsWith "https://www.temu.com" (extractRawItem elTemuRel).link = false := by
  decide

/-- C7 (amended): the destination link is the own `href` of the element when
nonempty, else the `href` of the first descendant anchor; a link that does not
start with `http` is prefixed with the fixed trendyol origin
`https://www.trendyol.com` regardless of the requested platform. -/
theorem link_resolution (el : ElemModel) :
    (optStr el.hrefAttr ≠ "" →
      (extractRawItem el).link = resolveLink (optStr el.hrefAttr)) ∧
    (optStr el.hrefAttr = "" →
      (extractRawItem el).link = resolveLink (optStr el.anchorHref)) ∧
    (∀ s : String, strStartsWith "http" s = false →
      resolveLink s = "https://www.trendyol.com" ++ s) ∧
    (∀ s : String, strStartsWith "http" s = true → resolveLink s = s) := by
  have hl : (extractRawItem el).link = resolveLink (extractLink el) := rfl
  refine ⟨?_, ?_, ?_, ?_⟩
  · intro h
    rw [hl, extractLink, jsOr, if_neg h]
  · intro h
    rw [hl, extractLink, jsOr, if_pos h]
  · intro s h
    rw [resolveLink]
    simp [h]
  · intro s h
    rw [resolveLink]
    simp [h]

/-- C7 (witness): the resolution rule applied to the relative-link card. -/
theorem link_resolution_witness :
    (extractRawItem elTemuRel).link = resolveLink (optStr elTemuRel.hrefAttr) :=
  (link_resolution elTemuRel).1 (by decide)

/-- C8: when the context/page setup between `chromium.launch()` and the
`try` block throws, the exception escapes `scrape` and `browser.close()`
never runs: the cycle records a launch but no close, contradicting the
always-released contract stated by the spec (the `finally` shows release on
every path was the intent). -/
theorem setup_failure_leaks_browser :
    (scrape "trendyol" envSetupFail).1 =
      ScrapeResult.thrown "browser.newContext failed" ∧
    (scrape "trendyol" envSetupFail).2 = [Ev.launch] ∧
    Ev.close ∉ (scrape "trendyol" envSetupFail).2 := by decide

/-- C9: on a card whose sale-price selectors are all empty but whose visible
text carries two currency-tagged tokens, the `src/server.js` variant applies
the regex fallback (first token original, last token sale) while the
`src/unnamed/part_000` variant leaves the price empty, so the two variants
produce different raw price strings. -/
theorem variants_differ_on_price_fallback :
    (extractRawItem elFallback).priceStr = "80 TL" ∧
    (extractRawItem elFallback).orgPriceStr = "100 TL" ∧
    (extractRawItemV0 elFallback).priceStr = "" ∧
    (extractRawItem elFallback).priceStr ≠ (extractRawItemV0 elFallback).priceStr := by
  decide

/-- C10: every success response satisfies
`saved_count ≤ filtered_count ≤ total_found`: the saved items are a subset
of the filtered products (one upsert each) and the filtered products come
from the extracted items by a filter. -/
theorem success_counts_ordered (key : String) (env : Env)
    (t f s : Nat) (d : List Product) (raw : List RawItem)
    (h : (scrape key env).1 = ScrapeResult.success t f s d raw) :
    s ≤ f ∧ f ≤ t := by
  unfold scrape at h
  rcases hc : CONFIG key with _ | cfg <;> rw [hc] at h
  · simp at h
  · rcases h1 : env.setupOk <;> rw [h1] at h
    · simp at h
    · rcases h2 : env.gotoOk <;> rw [h2] at h
      · simp at h
      · simp only [if_true] at h
        rw [ScrapeResult.success.injEq] at h
        obtain ⟨ht, hf, hs, _, _⟩ := h
        rw [← ht, ← hf, ← hs]
        constructor
        · refine le_trans (List.length_filter_le _ _) ?_
          rw [List.length_zip]
          exact min_le_left _ _
        · refine le_trans (List.length_filter_le _ _) ?_
          exact le_of_eq (List.length_map _ _)

/-- C10 (witness): the bound evaluated on a cycle that finds, keeps and
saves one product. -/
theorem success_counts_ordered_witness : (1 : ℕ) ≤ 1 ∧ (1 : ℕ) ≤ 1 :=
  success_counts_ordered "trendyol" env60 1 1 1
    [procItem "trendyol" (extractRawItem el60)] [extractRawItem el60] (by decide)

end Scraper
